import Mathlib

/-
Verification of the nikolife-backend recipe service against its specification.

The Python source is shallowly embedded: database rows become Lean structures,
SQLAlchemy queries become `List.filter`/`List.find?` over an explicit list of
rows, the request-scoped session becomes an explicit state value, and handlers
that can raise HTTP errors return `Except`.  Each definition is translated
from the function of the same name in the repository.
-/

/-- Name of the admin group, from `app/constants.py` (`ADMIN_GROUP_NAME = "admin"`). -/
def ADMIN_GROUP_NAME : String := "admin"

/-- An ORM `Groups` row/instance (`app/database/models/base.py`): id and name.
`gid` also stands for the Python object identity of the mapped instance. -/
structure GroupObj where
  gid : Nat
  name : String
deriving DecidableEq

/-- The fields of an ORM `Users` row used by the authorization code: the primary key
and the `groups` relationship (a list of `Groups` instances, with no expiration
filter on the relationship). -/
structure UsersRow where
  id : Nat
  groups : List GroupObj
deriving DecidableEq

/-- The service-model `UserModel` built in `app/api/routes/v1/utils/auth.py::get_user`:
its `groups` field is the list of group NAMES (`[group.name for group in user.groups]`). -/
structure UserModel where
  id : Nat
  groups : List String
deriving DecidableEq

/-- The part of an ORM `Recipes` row needed by the modify-authorization check:
the `user` relationship (the owner). -/
structure RecipeOwned where
  id : Nat
  user : UsersRow
deriving DecidableEq

/-- Outcomes of a handler that raises: the HTTP errors raised explicitly by the code,
plus `attributeError` for a Python `AttributeError` escaping the handler
(surfacing as a 500, not as any of the deliberate HTTP errors). -/
inductive HttpErr where
  | notFound404
  | unauthorized401
  | forbidden403
  | attributeError
deriving DecidableEq

/-- Python `==` between a `str` and a `Groups` ORM instance.  `Groups` defines no
`__eq__`, so comparison falls back to object identity and a string is never equal
to a mapped instance: the result is always `False`.  This is the comparison
performed elementwise by `ADMIN_GROUP_NAME in recipe.user.groups` in
`app/api/routes/v1/recipes/utils.py::check_is_user_allow_to_modify_recipe`. -/
def pyStrEqGroupObj (_s : String) (_g : GroupObj) : Bool := false

/-- Embedding of `check_is_user_allow_to_modify_recipe`
(`app/api/routes/v1/recipes/utils.py`, lines 251-265):
`recipe_created_by_this_user = recipe.user.id == current_user.id`;
`user_is_admin = ADMIN_GROUP_NAME in recipe.user.groups` (a membership test of a
string against `Groups` instances, hence elementwise `pyStrEqGroupObj`);
raises 401 when `not recipe_created_by_this_user or not user_is_admin`. -/
def check_is_user_allow_to_modify_recipe (recipe : RecipeOwned) (current_user : UserModel) :
    Except HttpErr Unit :=
  let recipe_created_by_this_user : Bool := recipe.user.id == current_user.id
  let user_is_admin : Bool := recipe.user.groups.any (fun g => pyStrEqGroupObj ADMIN_GROUP_NAME g)
  if !recipe_created_by_this_user || !user_is_admin then
    Except.error HttpErr.unauthorized401
  else
    Except.ok ()

/-- A row of the `recipes` table together with the related collections the queries
touch, all flattened to the attributes the filters compare:
`allowedGroups` are the names of `Recipes.allowed_groups`, `categories` the names
of the attached `RecipeCategories`, `ingredients` the names of the `Ingredients`
reachable through `RecipeIngredients`, `compilations` the names of the attached
`RecipeCompilations`, `likedBy` the ids of the users in `Recipes.liked_by`. -/
structure RecipeRow where
  id : Nat
  userId : Nat
  image : Option String
  allowedGroups : List String
  categories : List String
  ingredients : List String
  compilations : List String
  likedBy : List Nat
deriving DecidableEq

/-- Embedding of `get_recipe_view` (`app/api/routes/v1/recipes/views/default.py`,
lines 217-262).  The handler first selects the recipe by id (`first`, hence
`find?`), then tests whether the caller's group-name set intersects the recipe's
allowed-group names, raising 401 on empty intersection.  In the source the
visibility test `recipe.allowed_groups` is evaluated BEFORE the `if not recipe`
404 check, so when no recipe matched, `recipe` is `None` and the attribute access
raises `AttributeError`; the 404 branch is unreachable in that case. -/
def get_recipe_view (db : List RecipeRow) (recipe_id : Nat) (callerGroups : List String) :
    Except HttpErr RecipeRow :=
  match db.find? (fun r => r.id == recipe_id) with
  | none => Except.error HttpErr.attributeError
  | some recipe =>
      if recipe.allowedGroups.all (fun g => !callerGroups.contains g) then
        Except.error HttpErr.unauthorized401
      else
        Except.ok recipe

/-- Claim C1: the spec says the modify-recipe authorization check passes silently
iff the caller owns the recipe or the caller is an admin.  In the code,
`user_is_admin` tests the admin group NAME against the recipe OWNER's `Groups`
instances (always `False`), and the guard uses `or` over the negations, so the
check raises 401 for every recipe and every caller — including the owner and
including admins.  This theorem evaluates the code's behaviour universally. -/
theorem check_is_user_allow_to_modify_recipe_always_raises
    (recipe : RecipeOwned) (current_user : UserModel) :
    check_is_user_allow_to_modify_recipe recipe current_user =
      Except.error HttpErr.unauthorized401 := by
  simp [check_is_user_allow_to_modify_recipe, pyStrEqGroupObj]

/-- Claim C2: the spec says a lookup of a nonexistent recipe id raises NotFound and
a lookup that matches but fails the visibility check raises Unauthorized.  In the
code the missing-recipe case crashes with `AttributeError` (the 404 check is dead
code placed after the attribute access on `None`), while the existing-but-not-visible
case does raise 401.  Evaluated at a database without recipe 5 and at a database
whose only recipe (id 3) allows only group "payed" queried by a caller with no
groups. -/
theorem get_recipe_view_missing_recipe_crashes :
    get_recipe_view [] 5 ["user"] = Except.error HttpErr.attributeError ∧
    get_recipe_view [⟨3, 2, some "img", ["payed"], [], [], [], []⟩] 3 [] =
      Except.error HttpErr.unauthorized401 := by
  constructor
  · rfl
  · rfl

/-- Embedding of `select_recipes_and_filter_them`
(`app/api/routes/v1/recipes/utils.py`, lines 268-319).  The base query keeps a
recipe iff its `image` is not NULL and some allowed group name is among the
caller's group names; the optional parameters follow Python truthiness (an empty
list or `None` disables the corresponding filter).  When `prefer_ingredients` or
`exclude_groups` is truthy the query inner-joins `RecipeIngredients`, so a recipe
survives only with at least one ingredient row, and a truthy `prefer_ingredients`
further requires an ingredient whose name is listed; the `exclude_groups` body
itself is commented out in the source.  A truthy `compilation` requires the
recipe to belong to that compilation.  No branch consults whether the caller is
an admin. -/
def select_recipes_and_filter_them (db : List RecipeRow) (user_groups : List String)
    (include_categories prefer_ingredients exclude_groups : List String)
    (compilation : Option String) : List RecipeRow :=
  db.filter (fun r =>
    r.image.isSome &&
    r.allowedGroups.any (fun g => user_groups.contains g) &&
    (include_categories.isEmpty || r.categories.any (fun c => include_categories.contains c)) &&
    (if prefer_ingredients.isEmpty && exclude_groups.isEmpty then true
     else if prefer_ingredients.isEmpty then !r.ingredients.isEmpty
     else r.ingredients.any (fun i => prefer_ingredients.contains i)) &&
    (match compilation with
     | none => true
     | some c => if c = "" then true else r.compilations.contains c))

/-- Embedding of `get_recipes_by_ingredient_view`
(`app/api/routes/v1/recipes/views/default.py`, lines 91-129): the query keeps a
recipe iff `Recipes.user_id == 1`, its image is not NULL, an allowed group is
among the caller's groups (the source compares group ids; a group is identified
here by its name), and the recipe has an ingredient with the requested name. -/
def get_recipes_by_ingredient_view (db : List RecipeRow) (caller_groups : List String)
    (ingredient_name : String) : List RecipeRow :=
  db.filter (fun r =>
    r.userId == 1 &&
    r.image.isSome &&
    r.allowedGroups.any (fun g => caller_groups.contains g) &&
    r.ingredients.contains ingredient_name)

/-- Embedding of `get_recipes_by_category_view`
(`app/api/routes/v1/recipes/views/default.py`, lines 132-172): same shape as the
by-ingredient query, with `Recipes.user_id == 1` and a category-name filter. -/
def get_recipes_by_category_view (db : List RecipeRow) (caller_groups : List String)
    (category_name : String) : List RecipeRow :=
  db.filter (fun r =>
    r.userId == 1 &&
    r.image.isSome &&
    r.allowedGroups.any (fun g => caller_groups.contains g) &&
    r.categories.contains category_name)

/-- Embedding of `get_liked_recipes_view`
(`app/api/routes/v1/recipes/views/default.py`, lines 175-214): the SQL query
keeps recipes with `Recipes.user_id == 1` and a non-NULL image; the Python loop
then skips recipes the caller has not liked and recipes whose allowed-group
names do not intersect the caller's group names. -/
def get_liked_recipes_view (db : List RecipeRow) (caller_id : Nat)
    (caller_groups : List String) : List RecipeRow :=
  (db.filter (fun r => r.userId == 1 && r.image.isSome)).filter
    (fun r =>
      r.likedBy.contains caller_id &&
      r.allowedGroups.any (fun g => caller_groups.contains g))

/-- Claim C3: for a caller whose group names do not include "admin", every recipe
returned by the recipe-list query has an allowed-group name in common with the
caller's group names. -/
theorem select_recipes_nonadmin_groups_intersect (db : List RecipeRow)
    (user_groups include_categories prefer_ingredients exclude_groups : List String)
    (compilation : Option String) (hadmin : ADMIN_GROUP_NAME ∉ user_groups) :
    ∀ r ∈ select_recipes_and_filter_them db user_groups include_categories
        prefer_ingredients exclude_groups compilation,
      ∃ g ∈ r.allowedGroups, g ∈ user_groups := by
  intro r hr
  simp only [select_recipes_and_filter_them, List.mem_filter, Bool.and_eq_true,
    List.any_eq_true] at hr
  obtain ⟨-, ⟨⟨⟨⟨-, g, hg, hmem⟩, -⟩, -⟩, -⟩⟩ := hr
  exact ⟨g, hg, List.elem_iff.mp hmem⟩

/-- Witness for C3 at a concrete database and caller: caller in group "user",
one visible recipe allowed for "user". -/
theorem select_recipes_nonadmin_groups_intersect_witness :
    ADMIN_GROUP_NAME ∉ ["user"] ∧
    ∃ g ∈ (⟨1, 1, some "img", ["user"], [], [], [], []⟩ : RecipeRow).allowedGroups,
      g ∈ ["user"] :=
  ⟨by decide,
   select_recipes_nonadmin_groups_intersect
     [⟨1, 1, some "img", ["user"], [], [], [], []⟩] ["user"] [] [] [] none
     (by decide) ⟨1, 1, some "img", ["user"], [], [], [], []⟩ (by decide)⟩

/-- Claim C4: for a caller whose group names do not include "admin", no recipe
returned by the recipe-list query has an absent (NULL) image. -/
theorem select_recipes_nonadmin_image_present (db : List RecipeRow)
    (user_groups include_categories prefer_ingredients exclude_groups : List String)
    (compilation : Option String) (hadmin : ADMIN_GROUP_NAME ∉ user_groups) :
    ∀ r ∈ select_recipes_and_filter_them db user_groups include_categories
        prefer_ingredients exclude_groups compilation,
      r.image ≠ none := by
  intro r hr
  simp only [select_recipes_and_filter_them, List.mem_filter, Bool.and_eq_true] at hr
  obtain ⟨-, ⟨⟨⟨⟨himg, -⟩, -⟩, -⟩, -⟩⟩ := hr
  intro hnone
  rw [hnone] at himg
  exact Bool.false_ne_true himg

/-- Witness for C4 at a concrete database and caller. -/
theorem select_recipes_nonadmin_image_present_witness :
    ADMIN_GROUP_NAME ∉ ["user"] ∧
    (⟨1, 1, some "img", ["user"], [], [], [], []⟩ : RecipeRow).image ≠ none :=
  ⟨by decide,
   select_recipes_nonadmin_image_present
     [⟨1, 1, some "img", ["user"], [], [], [], []⟩] ["user"] [] [] [] none
     (by decide) ⟨1, 1, some "img", ["user"], [], [], [], []⟩ (by decide)⟩

/-- Counterexample to claim C5: the claim says an admin caller bypasses the
visibility filter and receives recipes whose allowed groups do not intersect the
caller's groups.  At the concrete database holding one recipe with image and
allowed groups {"payed"}, a caller with groups {"admin"} receives nothing: the
recipe is NOT in the result. -/
theorem select_recipes_admin_bypass_counterexample :
    (⟨1, 1, some "img", ["payed"], [], [], [], []⟩ : RecipeRow) ∉
      select_recipes_and_filter_them
        [⟨1, 1, some "img", ["payed"], [], [], [], []⟩] ["admin"] [] [] [] none := by
  decide

/-- Claim C5 (amended): the recipe-list query applies the same allowed-group
intersection filter and the same non-NULL-image filter to every caller —
including callers whose group names contain "admin"; no branch bypasses either
filter for admins. -/
theorem select_recipes_admin_not_bypassed (db : List RecipeRow)
    (user_groups include_categories prefer_ingredients exclude_groups : List String)
    (compilation : Option String) (hadmin : ADMIN_GROUP_NAME ∈ user_groups) :
    ∀ r ∈ select_recipes_and_filter_them db user_groups include_categories
        prefer_ingredients exclude_groups compilation,
      r.image ≠ none ∧ ∃ g ∈ r.allowedGroups, g ∈ user_groups := by
  intro r hr
  simp only [select_recipes_and_filter_them, List.mem_filter, Bool.and_eq_true,
    List.any_eq_true] at hr
  obtain ⟨-, ⟨⟨⟨⟨himg, g, hg, hmem⟩, -⟩, -⟩, -⟩⟩ := hr
  refine ⟨?_, g, hg, List.elem_iff.mp hmem⟩
  intro hnone
  rw [hnone] at himg
  exact Bool.false_ne_true himg

/-- Witness for the amended C5 at a concrete database and an admin caller. -/
theorem select_recipes_admin_not_bypassed_witness :
    ADMIN_GROUP_NAME ∈ ["admin"] ∧
    ((⟨2, 1, some "img", ["admin"], [], [], [], []⟩ : RecipeRow).image ≠ none ∧
     ∃ g ∈ (⟨2, 1, some "img", ["admin"], [], [], [], []⟩ : RecipeRow).allowedGroups,
       g ∈ ["admin"]) :=
  ⟨by decide,
   select_recipes_admin_not_bypassed
     [⟨2, 1, some "img", ["admin"], [], [], [], []⟩] ["admin"] [] [] [] none
     (by decide) ⟨2, 1, some "img", ["admin"], [], [], [], []⟩ (by decide)⟩

/-- Claim C10: the liked-recipes listing, the recipes-by-ingredient search and the
recipes-by-category search all hard-code the filter `Recipes.user_id == 1`, so
every recipe any of them returns was created by the user with id 1. -/
theorem recipe_search_views_only_user_one (db : List RecipeRow)
    (caller_groups : List String) (ingredient_name category_name : String)
    (caller_id : Nat) :
    (∀ r ∈ get_recipes_by_ingredient_view db caller_groups ingredient_name, r.userId = 1) ∧
    (∀ r ∈ get_recipes_by_category_view db caller_groups category_name, r.userId = 1) ∧
    (∀ r ∈ get_liked_recipes_view db caller_id caller_groups, r.userId = 1) := by
  refine ⟨?_, ?_, ?_⟩ <;> intro r hr
  · simp only [get_recipes_by_ingredient_view, List.mem_filter, Bool.and_eq_true,
      beq_iff_eq] at hr
    exact hr.2.1.1.1
  · simp only [get_recipes_by_category_view, List.mem_filter, Bool.and_eq_true,
      beq_iff_eq] at hr
    exact hr.2.1.1.1
  · simp only [get_liked_recipes_view, List.mem_filter, Bool.and_eq_true,
      beq_iff_eq] at hr
    exact hr.1.2.1

/-- Witness for C10: a concrete recipe created by user 1 that each of the three
queries returns. -/
theorem recipe_search_views_only_user_one_witness :
    (⟨1, 1, some "img", ["user"], ["breakfast"], ["egg"], [], [2]⟩ : RecipeRow).userId = 1 :=
  (recipe_search_views_only_user_one
      [⟨1, 1, some "img", ["user"], ["breakfast"], ["egg"], [], [2]⟩]
      ["user"] "egg" "breakfast" 2).1
    ⟨1, 1, some "img", ["user"], ["breakfast"], ["egg"], [], [2]⟩ (by decide)

/-- One row of the `association_users_groups` table joined with its group: the
group's name and the row's optional `expiration_time`
(`app/database/models/base.py`, association table with nullable
`expiration_time` column). -/
structure MembershipRow where
  groupName : String
  expirationTime : Option Int
deriving DecidableEq

/-- The `Users.groups` ORM relationship: it traverses every association row with
no expiration filter, presenting just the group objects; the names extracted from
it by `check_user_is_in_group` are therefore the names of ALL membership rows. -/
def userGroupNames (rows : List MembershipRow) : List String :=
  rows.map (fun m => m.groupName)

/-- Embedding of `check_user_is_in_group` (`app/api/routes/v1/utils/auth.py`,
lines 149-161): raises 401 when `group_name not in [i.name for i in user.groups]`,
otherwise returns `True`.  The expiration time of the membership rows is never
consulted. -/
def check_user_is_in_group (group_name : String) (rows : List MembershipRow) :
    Except HttpErr Bool :=
  if !(userGroupNames rows).contains group_name then
    Except.error HttpErr.unauthorized401
  else
    Except.ok true

/-- Embedding of `remove_outdated_groups` (`cron_tasks/remove_outdated_groups.py`,
lines 10-16): deletes the association rows with `expiration_time < now`.  A row
with NULL `expiration_time` is kept (SQL `NULL < now` is not true). -/
def remove_outdated_groups (now : Int) (rows : List MembershipRow) : List MembershipRow :=
  rows.filter (fun m =>
    match m.expirationTime with
    | none => true
    | some t => !(decide (t < now)))

/-- The spec's notion of current membership, for comparison with the code: a
membership row counts only while it is not past its expiration timestamp
("a membership past its expiration is logically void even though the row still
exists until swept").  This definition follows the spec's words, not the code. -/
def specCurrentGroupNames (now : Int) (rows : List MembershipRow) : List String :=
  (rows.filter (fun m =>
    match m.expirationTime with
    | none => true
    | some t => !(decide (t < now)))).map (fun m => m.groupName)

/-- Counterexample to claim C6: the claim says a membership row whose expiration
lies in the past does not count even while the row still exists.  At time 10, for
a user whose only membership row is ("payed", expires 5) — expired but not yet
swept — the code's check succeeds although "payed" is not among the spec's
current (non-expired) memberships. -/
theorem check_user_is_in_group_counts_expired_counterexample :
    check_user_is_in_group "payed" [⟨"payed", some 5⟩] = Except.ok true ∧
    "payed" ∉ specCurrentGroupNames 10 [⟨"payed", some 5⟩] := by
  constructor
  · rfl
  · decide

/-- Claim C6 (amended): the in-group check succeeds iff the group name is among the
names of the user's membership rows that currently EXIST, regardless of
expiration; an expired row keeps counting until the `remove_outdated_groups`
cron sweep deletes it, and after the sweep the check agrees with the spec's
non-expired membership notion. -/
theorem check_user_is_in_group_iff_row_exists (group_name : String)
    (rows : List MembershipRow) (now : Int) :
    (check_user_is_in_group group_name rows = Except.ok true ↔
      group_name ∈ userGroupNames rows) ∧
    (check_user_is_in_group group_name (remove_outdated_groups now rows) = Except.ok true ↔
      group_name ∈ specCurrentGroupNames now rows) := by
  have key : ∀ rs : List MembershipRow,
      (check_user_is_in_group group_name rs = Except.ok true ↔
        group_name ∈ userGroupNames rs) := by
    intro rs
    unfold check_user_is_in_group
    by_cases h : group_name ∈ userGroupNames rs
    · simp [List.elem_iff.mpr h, h]
    · have : (userGroupNames rs).contains group_name = false := by
        rw [← Bool.not_eq_true]
        intro hc
        exact h (List.elem_iff.mp hc)
      simp [this, h]
  exact ⟨key rows, key (remove_outdated_groups now rows)⟩

/-- Result reported by the like-toggle endpoint: which of the two responses the
handler returns. -/
inductive LikeToggleResult where
  | liked
  | unliked
deriving DecidableEq

/-- Embedding of `toggle_recipe_like_view`
(`app/api/routes/v1/recipes/views/utility.py`, lines 305-335), acting on the
caller's `liked_recipes` edge list (recipe ids): if the recipe is not in the
list, append it and report liked; otherwise remove it (Python `list.remove`
drops the first equal element, hence `List.erase`) and report unliked. -/
def toggle_recipe_like_view (liked_recipes : List Nat) (recipe_id : Nat) :
    LikeToggleResult × List Nat :=
  if !liked_recipes.contains recipe_id then
    (LikeToggleResult.liked, liked_recipes ++ [recipe_id])
  else
    (LikeToggleResult.unliked, liked_recipes.erase recipe_id)

/-- Claim C7: toggling the like edge is an involution on the liked/unliked state:
an absent edge is created and reported as liked, a present edge is removed and
reported as unliked, and two toggles in a row restore the original state.  The
edge list is duplicate-free, as the association table's rows are keyed by the
(user, recipe) pair. -/
theorem toggle_recipe_like_involution (liked : List Nat) (rid : Nat)
    (hnd : liked.Nodup) :
    (rid ∉ liked →
      toggle_recipe_like_view liked rid = (LikeToggleResult.liked, liked ++ [rid]) ∧
      rid ∈ (toggle_recipe_like_view liked rid).2) ∧
    (rid ∈ liked →
      (toggle_recipe_like_view liked rid).1 = LikeToggleResult.unliked ∧
      rid ∉ (toggle_recipe_like_view liked rid).2) ∧
    (rid ∈ (toggle_recipe_like_view (toggle_recipe_like_view liked rid).2 rid).2 ↔
      rid ∈ liked) := by
  by_cases h : rid ∈ liked
  · have herase : rid ∉ liked.erase rid := fun hmem =>
      ((hnd.mem_erase_iff).mp hmem).1 rfl
    have ht : toggle_recipe_like_view liked rid =
        (LikeToggleResult.unliked, liked.erase rid) := by
      simp [toggle_recipe_like_view, h]
    have ht2 : toggle_recipe_like_view (liked.erase rid) rid =
        (LikeToggleResult.liked, liked.erase rid ++ [rid]) := by
      simp [toggle_recipe_like_view, herase]
    refine ⟨fun hna => absurd h hna, fun _ => ?_, ?_⟩
    · rw [ht]
      exact ⟨rfl, herase⟩
    · simp [ht, ht2, h]
  · have ht : toggle_recipe_like_view liked rid =
        (LikeToggleResult.liked, liked ++ [rid]) := by
      simp [toggle_recipe_like_view, h]
    have happ : rid ∈ liked ++ [rid] := List.mem_append_right _ (List.mem_singleton.mpr rfl)
    have happnd : (liked ++ [rid]).Nodup := by
      simp [List.nodup_append, hnd, h]
    have hout : rid ∉ (liked ++ [rid]).erase rid := fun hmem =>
      ((happnd.mem_erase_iff).mp hmem).1 rfl
    have ht2 : toggle_recipe_like_view (liked ++ [rid]) rid =
        (LikeToggleResult.unliked, (liked ++ [rid]).erase rid) := by
      simp [toggle_recipe_like_view, happ]
    refine ⟨fun _ => ?_, fun hin => absurd hin h, ?_⟩
    · rw [ht]
      exact ⟨rfl, happ⟩
    · simp [ht, ht2, h, hout]

/-- Witness for C7 at a concrete edge list: user has liked recipes [4, 7], toggling
recipe 7. -/
theorem toggle_recipe_like_involution_witness :
    (7 ∉ [4, 7] →
      toggle_recipe_like_view [4, 7] 7 = (LikeToggleResult.liked, [4, 7] ++ [7]) ∧
      7 ∈ (toggle_recipe_like_view [4, 7] 7).2) ∧
    (7 ∈ [4, 7] →
      (toggle_recipe_like_view [4, 7] 7).1 = LikeToggleResult.unliked ∧
      7 ∉ (toggle_recipe_like_view [4, 7] 7).2) ∧
    (7 ∈ (toggle_recipe_like_view (toggle_recipe_like_view [4, 7] 7).2 7).2 ↔
      7 ∈ [4, 7]) :=
  toggle_recipe_like_involution [4, 7] 7 (by decide)

/-- An ORM `RecipeCategories` row attached to a recipe: primary key and name.
`cid` also stands for the Python object identity of the mapped instance. -/
structure CategoryRow where
  cid : Nat
  name : String
deriving DecidableEq

/-- One step of the deletion loop in `update_recipe_categories`: the source takes
the FIRST attached category whose name matches
(`list(filter(lambda x: x.name == ..., recipe.categories))[0]`) and removes that
object from the list (`list.remove` drops the first equal element). -/
def removeFirstCategoryNamed (n : String) : List CategoryRow → List CategoryRow
  | [] => []
  | c :: rest => if c.name = n then rest else c :: removeFirstCategoryNamed n rest

/-- Embedding of `update_recipe_categories`
(`app/api/routes/v1/recipes/utils.py`, lines 200-226):
`categories_to_delete = set(current) - set(new)`,
`categories_to_add = set(new) - set(current)` (the `set()` construction
deduplicates, hence `dedup`); the loop removes, for each name to delete, the
first attached category with that name; then for each name to add it appends the
row returned by `get_category_or_create_if_not_exists`, abstracted here as
`resolve : String → CategoryRow`. -/
def update_recipe_categories (new_categories : List String) (cats : List CategoryRow)
    (resolve : String → CategoryRow) : List CategoryRow :=
  let current := cats.map (fun c => c.name)
  let categories_to_delete := current.dedup.filter (fun n => !new_categories.contains n)
  let categories_to_add := new_categories.dedup.filter (fun n => !current.contains n)
  let after_delete := categories_to_delete.foldl
    (fun cs n => removeFirstCategoryNamed n cs) cats
  after_delete ++ categories_to_add.map resolve

theorem removeFirstCategoryNamed_eq_filter (n : String) (cats : List CategoryRow)
    (hnd : (cats.map (fun c => c.name)).Nodup) :
    removeFirstCategoryNamed n cats = cats.filter (fun c => !(c.name == n)) := by
  induction cats with
  | nil => rfl
  | cons c rest ih =>
      simp only [List.map_cons, List.nodup_cons] at hnd
      by_cases hn : c.name = n
      · have hrest : rest.filter (fun c => !(c.name == n)) = rest := by
          apply List.filter_eq_self.mpr
          intro d hd
          have : d.name ≠ n := fun hdn => hnd.1 (by
            rw [hn, ← hdn]
            exact List.mem_map_of_mem _ hd)
          simp [this]
        simp [removeFirstCategoryNamed, hn, hrest]
      · simp [removeFirstCategoryNamed, hn, ih hnd.2]

theorem removeFirstCategoryNamed_names_nodup (n : String) (cats : List CategoryRow)
    (hnd : (cats.map (fun c => c.name)).Nodup) :
    ((removeFirstCategoryNamed n cats).map (fun c => c.name)).Nodup := by
  rw [removeFirstCategoryNamed_eq_filter n cats hnd]
  exact hnd.sublist (List.Sublist.map _ (List.filter_sublist cats))

theorem foldl_removeFirstCategoryNamed_eq_filter (dels : List String)
    (cats : List CategoryRow) (hnd : (cats.map (fun c => c.name)).Nodup) :
    dels.foldl (fun cs n => removeFirstCategoryNamed n cs) cats =
      cats.filter (fun c => !dels.contains c.name) := by
  induction dels generalizing cats with
  | nil => simp
  | cons d ds ih =>
      rw [List.foldl_cons]
      rw [ih (removeFirstCategoryNamed d cats)
        (removeFirstCategoryNamed_names_nodup d cats hnd)]
      rw [removeFirstCategoryNamed_eq_filter d cats hnd]
      rw [List.filter_filter]
      apply List.filter_congr
      intro c _
      by_cases hcd : c.name = d <;> by_cases hds : c.name ∈ ds <;>
        simp [List.contains_cons, hcd, hds]

/-- Claim C8: replacing a recipe's category list removes exactly the attached
categories whose names are in the old name set but not the new, appends exactly
(one row per name) the names in the new set but not the old, and keeps the rows
whose names are in both sets untouched — stated as a closed form: the result is
the original attachment list restricted to names that are re-listed, followed by
the resolved rows of the genuinely new names.  The attached categories carry
distinct names, as each name is attached at most once. -/
theorem update_recipe_categories_exact_diff (new_categories : List String)
    (cats : List CategoryRow) (resolve : String → CategoryRow)
    (hnd : (cats.map (fun c => c.name)).Nodup) :
    update_recipe_categories new_categories cats resolve =
      cats.filter (fun c => new_categories.contains c.name) ++
        (new_categories.dedup.filter
          (fun n => !(cats.map (fun c => c.name)).contains n)).map resolve := by
  show ((cats.map (fun c => c.name)).dedup.filter
      (fun n => !new_categories.contains n)).foldl
        (fun cs n => removeFirstCategoryNamed n cs) cats ++
      (new_categories.dedup.filter
        (fun n => !(cats.map (fun c => c.name)).contains n)).map resolve = _
  congr 1
  rw [foldl_removeFirstCategoryNamed_eq_filter _ _ hnd]
  apply List.filter_congr
  intro c hc
  have hcn : c.name ∈ (cats.map (fun x => x.name)).dedup :=
    List.mem_dedup.mpr (List.mem_map_of_mem _ hc)
  by_cases hnew : new_categories.contains c.name = true
  · have hnotdel : c.name ∉
        (cats.map (fun x => x.name)).dedup.filter (fun n => !new_categories.contains n) := by
      intro hmem
      have hpass := (List.mem_filter.mp hmem).2
      rw [hnew] at hpass
      exact Bool.false_ne_true hpass
    have hcontains : ((cats.map (fun x => x.name)).dedup.filter
        (fun n => !new_categories.contains n)).contains c.name = false := by
      rw [← Bool.not_eq_true]
      intro hcc
      exact hnotdel (List.elem_iff.mp hcc)
    simp [hcontains, hnew]
    intro hall
    exact absurd rfl (hall c hc)
  · have hfalse : new_categories.contains c.name = false :=
      Bool.eq_false_iff.mpr hnew
    have hdel : c.name ∈
        (cats.map (fun x => x.name)).dedup.filter (fun n => !new_categories.contains n) :=
      List.mem_filter.mpr ⟨hcn, by rw [hfalse]; rfl⟩
    have hcontains : ((cats.map (fun x => x.name)).dedup.filter
        (fun n => !new_categories.contains n)).contains c.name = true :=
      List.elem_iff.mpr hdel
    simp [hcontains, hfalse]
    intro hall
    exact absurd rfl (hall c hc)

/-- Witness for C8 at a concrete recipe: attached categories "soup" (row 1) and
"breakfast" (row 2), new list ["breakfast", "salad"]: row 1 is removed, row 2 is
kept as the same row, and a resolved row for "salad" is appended. -/
theorem update_recipe_categories_exact_diff_witness :
    (([⟨1, "soup"⟩, ⟨2, "breakfast"⟩] : List CategoryRow).map (fun c => c.name)).Nodup ∧
    update_recipe_categories ["breakfast", "salad"] [⟨1, "soup"⟩, ⟨2, "breakfast"⟩]
        (fun n => ⟨100, n⟩) =
      ([⟨1, "soup"⟩, ⟨2, "breakfast"⟩] : List CategoryRow).filter
          (fun c => (["breakfast", "salad"] : List String).contains c.name) ++
        ((["breakfast", "salad"] : List String).dedup.filter
          (fun n => !(([⟨1, "soup"⟩, ⟨2, "breakfast"⟩] : List CategoryRow).map
            (fun c => c.name)).contains n)).map (fun n => (⟨100, n⟩ : CategoryRow)) :=
  ⟨by decide,
   update_recipe_categories_exact_diff ["breakfast", "salad"]
     [⟨1, "soup"⟩, ⟨2, "breakfast"⟩] (fun n => ⟨100, n⟩) (by decide)⟩

/-- A named entity row (`Groups`, `RecipeDimensions`, `IngredientsGroups` or
`RecipeCategories`): `oid` stands both for the database identity and for the
Python object identity of the mapped instance, so two separately constructed
fresh instances carry different `oid`s. -/
structure EntityRow where
  oid : Nat
  name : String
deriving DecidableEq

/-- The state of one SQLAlchemy `AsyncSession` over one entity table: the
persisted rows visible to queries, the entities registered with `session.add`
but not yet flushed, and the next fresh object identity. -/
structure SessionState where
  db : List EntityRow
  pending : List EntityRow
  nextOid : Nat
deriving DecidableEq

/-- The session flush: pending added entities become persisted rows.  The session
is configured with the default `autoflush=True` (`sessionmaker` in
`app/database/manager.py` passes no `autoflush` argument), so a flush happens
before every query execution. -/
def flushSession (s : SessionState) : SessionState :=
  { db := s.db ++ s.pending, pending := [], nextOid := s.nextOid }

/-- Execution of `select(Model).where(Model.name == name)` followed by
`.scalars().first()`: autoflush, then the first persisted row with the name. -/
def selectFirstByName (n : String) (s : SessionState) : Option EntityRow × SessionState :=
  let s2 := flushSession s
  (s2.db.find? (fun e => e.name == n), s2)

/-- Embedding of `get_group_model_or_create_if_not_exists`
(`app/api/routes/v1/users/groups/utils.py`, lines 37-46): select by name; if a
row is found return it, otherwise construct a fresh `Groups` instance,
`session.add` it, and return it. -/
def get_group_model_or_create_if_not_exists (group_name : String) (s : SessionState) :
    EntityRow × SessionState :=
  match selectFirstByName group_name s with
  | (some found_group, s2) => (found_group, s2)
  | (none, s2) =>
      let new_group : EntityRow := { oid := s2.nextOid, name := group_name }
      (new_group,
        { db := s2.db, pending := s2.pending ++ [new_group], nextOid := s2.nextOid + 1 })

/-- Embedding of `get_dimension_model_or_create_if_not_exists`
(`app/api/routes/v1/recipes/utils.py`, lines 69-86): same shape — select by
name, else construct, `session.add`, return. -/
def get_dimension_model_or_create_if_not_exists (dimension : String) (s : SessionState) :
    EntityRow × SessionState :=
  match selectFirstByName dimension s with
  | (some found_dimension, s2) => (found_dimension, s2)
  | (none, s2) =>
      let new_dimension : EntityRow := { oid := s2.nextOid, name := dimension }
      (new_dimension,
        { db := s2.db, pending := s2.pending ++ [new_dimension], nextOid := s2.nextOid + 1 })

/-- Embedding of `get_ingredient_group_or_create_if_not_exists`
(`app/api/routes/v1/recipes/utils.py`, lines 23-40): same shape — select by
name, else construct, `session.add`, return. -/
def get_ingredient_group_or_create_if_not_exists (name : String) (s : SessionState) :
    EntityRow × SessionState :=
  match selectFirstByName name s with
  | (some found_group, s2) => (found_group, s2)
  | (none, s2) =>
      let new_group : EntityRow := { oid := s2.nextOid, name := name }
      (new_group,
        { db := s2.db, pending := s2.pending ++ [new_group], nextOid := s2.nextOid + 1 })

/-- Embedding of `get_category_or_create_if_not_exists`
(`app/api/routes/v1/recipes/utils.py`, lines 108-124): select by name; if a row
is found return it, otherwise construct a fresh `RecipeCategories` instance and
return it — WITHOUT `session.add`: unlike the other three helpers, the new
entity is never registered with the session. -/
def get_category_or_create_if_not_exists (category : String) (s : SessionState) :
    EntityRow × SessionState :=
  match selectFirstByName category s with
  | (some found_category, s2) => (found_category, s2)
  | (none, s2) =>
      let found_category : EntityRow := { oid := s2.nextOid, name := category }
      (found_category,
        { db := s2.db, pending := s2.pending, nextOid := s2.nextOid + 1 })

theorem get_group_model_or_create_idem (n : String) (s : SessionState) :
    (get_group_model_or_create_if_not_exists n
        ((get_group_model_or_create_if_not_exists n s).2)).1 =
      (get_group_model_or_create_if_not_exists n s).1 := by
  cases hf : (s.db ++ s.pending).find? (fun e => e.name == n) with
  | some e =>
      simp [get_group_model_or_create_if_not_exists, selectFirstByName, flushSession, hf]
  | none =>
      rw [List.find?_append] at hf
      obtain ⟨hd, hp⟩ := Option.or_eq_none.mp hf
      simp [get_group_model_or_create_if_not_exists, selectFirstByName, flushSession,
        List.find?_append, hd, hp]

theorem get_dimension_eq_get_group :
    get_dimension_model_or_create_if_not_exists = get_group_model_or_create_if_not_exists :=
  rfl

theorem get_ingredient_group_eq_get_group :
    get_ingredient_group_or_create_if_not_exists = get_group_model_or_create_if_not_exists :=
  rfl

/-- Claim C9 (amended): for the get-or-create helpers that `session.add` their new
entity — group, dimension, ingredient group — calling the helper twice with the
same name in one session (no intervening delete) returns the same underlying
entity both times, because autoflush persists the pending entity before the
second lookup.  The category helper is the exception, witnessed separately: it
never adds its new entity to the session, so a second call for a name not yet in
the database constructs a second fresh entity. -/
theorem get_or_create_add_helpers_idempotent (n : String) (s : SessionState) :
    ((get_group_model_or_create_if_not_exists n
        ((get_group_model_or_create_if_not_exists n s).2)).1 =
      (get_group_model_or_create_if_not_exists n s).1) ∧
    ((get_dimension_model_or_create_if_not_exists n
        ((get_dimension_model_or_create_if_not_exists n s).2)).1 =
      (get_dimension_model_or_create_if_not_exists n s).1) ∧
    ((get_ingredient_group_or_create_if_not_exists n
        ((get_ingredient_group_or_create_if_not_exists n s).2)).1 =
      (get_ingredient_group_or_create_if_not_exists n s).1) := by
  refine ⟨get_group_model_or_create_idem n s, ?_, ?_⟩
  · rw [get_dimension_eq_get_group]
    exact get_group_model_or_create_idem n s
  · rw [get_ingredient_group_eq_get_group]
    exact get_group_model_or_create_idem n s

/-- Counterexample to claim C9: the claim asserts idempotence for EVERY
get-or-create helper, including the category one.  On a session over an empty
category table, two calls of `get_category_or_create_if_not_exists` with the
same name "soup" return two distinct fresh entities: the first call's entity is
never added to the session, so the second lookup finds nothing. -/
theorem get_category_or_create_not_idempotent :
    (get_category_or_create_if_not_exists "soup"
        ((get_category_or_create_if_not_exists "soup"
          { db := [], pending := [], nextOid := 0 }).2)).1 ≠
      (get_category_or_create_if_not_exists "soup"
        { db := [], pending := [], nextOid := 0 }).1 := by
  decide
